import Mathlib

/-!
Shallow embedding of the broker/provider routing layer of the Ripple
repository (Rust), covering:

* `ssda/ssda_types/src/lib.rs` — the gateway/service message types, the
  conversion from `ServiceRoutingResponse` to `JsonRpcApiResponse`, and the
  `WebsocketAPIGatewayClient` message loop and reconnect loop;
* `core/main/src/broker/service_broker.rs` — `ServiceBroker::get_broker`;
* `core/main/src/firebolt/handlers/provider_registrar.rs` — the provider
  response timeout constant;
* `core/main/src/firebolt/handlers/on_request_rpc.rs` — `RPCProvider`.

Machine integers (`u64` request ids) are modelled as `Nat`: the code only
ever copies and compares them, never does arithmetic on them, so overflow
cannot be observed.  Asynchronous effects (tokio channels, oneshot
await, websocket frames) are modelled by passing the outcome of each
suspension point in explicitly as data.
-/

/-- `serde_json::Value`. -/
inductive Json where
  | null : Json
  | bool (b : Bool) : Json
  | num (n : Int) : Json
  | str (s : String) : Json
  | arr (elems : List Json) : Json
  | obj (fields : List (String × Json)) : Json

/-- `ssda_types::ServiceRequestId` — `pub request_id: u64`. -/
structure ServiceRequestId where
  request_id : Nat
deriving DecidableEq

/-- `ssda_types::ServiceId` — `pub service_id: String`. -/
structure ServiceId where
  service_id : String
deriving DecidableEq

/-- `ssda_types::JqRule`. -/
structure JqRule where
  alias_ : String
  rule : String
deriving DecidableEq

/-- `ssda_types::service::FireboltMethodHandlerAPIRegistration`. -/
structure FireboltMethodHandlerAPIRegistration where
  firebolt_method : String
  jq_rule : Option JqRule
deriving DecidableEq

/-- `ssda_types::service::APIGatewayServiceRegistrationRequest`. -/
structure APIGatewayServiceRegistrationRequest where
  firebolt_handlers : List FireboltMethodHandlerAPIRegistration
deriving DecidableEq

/-- `ssda_types::service::APIGatewayServiceRegistrationResponse`. -/
structure APIGatewayServiceRegistrationResponse where
  firebolt_handlers : List FireboltMethodHandlerAPIRegistration
deriving DecidableEq

/-- `ssda_types::service::ServiceRegistration` (the client-side declared
registration: service id plus handler list). -/
structure ServiceRegistration where
  service_id : ServiceId
  firebolt_handlers : List FireboltMethodHandlerAPIRegistration
deriving DecidableEq

/-- `ServiceRegistration::get_rule_registrations` — clones the handler list. -/
def ServiceRegistration.get_rule_registrations
    (r : ServiceRegistration) : List FireboltMethodHandlerAPIRegistration :=
  r.firebolt_handlers

/-- `ssda_types::service::ServiceCall`. -/
structure ServiceCall where
  request_id : ServiceRequestId
  method : String
  payload : Json

/-- `ssda_types::service::ServiceCallSuccessResponse`. -/
structure ServiceCallSuccessResponse where
  request_id : ServiceRequestId
  response : Json

/-- `ssda_types::service::ServiceCallErrorResponse`. -/
structure ServiceCallErrorResponse where
  request_id : ServiceRequestId
  error : String

/-- `ssda_types::service::APIClientMessages` — the flat websocket wire enum. -/
inductive APIClientMessages where
  | Register (r : APIGatewayServiceRegistrationRequest)
  | Registered (r : APIGatewayServiceRegistrationResponse)
  | ErrorMessage (e : String)
  | Unregister (s : ServiceId)
  | ServiceCallMsg (c : ServiceCall)
  | ServiceCallSuccess (r : ServiceCallSuccessResponse)
  | ServiceCallError (r : ServiceCallErrorResponse)

/-- `ssda_types::gateway::ServiceRoutingSuccessResponse`. -/
structure ServiceRoutingSuccessResponse where
  request_id : ServiceRequestId
  response : Json

/-- `ssda_types::gateway::ServiceRoutingErrorResponse`. -/
structure ServiceRoutingErrorResponse where
  request_id : ServiceRequestId
  error : String

/-- `ssda_types::gateway::ServiceRoutingResponse`. -/
inductive ServiceRoutingResponse where
  | success (s : ServiceRoutingSuccessResponse)
  | error (e : ServiceRoutingErrorResponse)

/-- `ripple_sdk::api::gateway::rpc_gateway_api::JsonRpcApiResponse`.  The
field list is taken from the struct literal built in
`impl From<ServiceRoutingResponse> for JsonRpcApiResponse` in
`ssda_types/src/lib.rs` (id, jsonrpc, result, error, method, params). -/
structure JsonRpcApiResponse where
  id : Option Nat
  jsonrpc : String
  result : Option Json
  error : Option Json
  method : Option String
  params : Option Json

/-- Modelled from the spec: `JsonRpcApiResponse::default()` lives in
`ripple_sdk`, which is not under `src/`.  The spec's response shape is
`{jsonrpc: "2.0", id, result}` / `{jsonrpc: "2.0", id, error: {code, message}}`,
so the default envelope carries `jsonrpc = "2.0"` and no other field. -/
def JsonRpcApiResponse.default : JsonRpcApiResponse :=
  { id := none, jsonrpc := "2.0", result := none, error := none,
    method := none, params := none }

/-- Modelled from the spec: `JsonRpcApiResponse::with_id` (in `ripple_sdk`,
not under `src/`) sets the envelope id. -/
def JsonRpcApiResponse.with_id (r : JsonRpcApiResponse) (i : Nat) :
    JsonRpcApiResponse :=
  { r with id := some i }

/-- Modelled from the spec: `JsonRpcApiResponse::with_result` (in
`ripple_sdk`, not under `src/`) sets the result field. -/
def JsonRpcApiResponse.with_result (r : JsonRpcApiResponse)
    (v : Option Json) : JsonRpcApiResponse :=
  { r with result := v }

/-- Modelled from the spec: `ripple_sdk`'s `JsonRpcApiError` (not under
`src/`): an error-envelope builder holding an optional id, a numeric code
and a message.  `Default` gives an empty message and no id; the default
numeric code's concrete value is never observed by any claim, it is fixed
at 0 here. -/
structure JsonRpcApiError where
  id : Option Nat
  code : Int
  message : String

/-- Modelled from the spec: `JsonRpcApiError::default()`. -/
def JsonRpcApiError.default : JsonRpcApiError :=
  { id := none, code := 0, message := "" }

/-- Modelled from the spec: `JsonRpcApiError::with_id`. -/
def JsonRpcApiError.with_id (e : JsonRpcApiError) (i : Nat) : JsonRpcApiError :=
  { e with id := some i }

/-- Modelled from the spec: `JsonRpcApiError::with_message`. -/
def JsonRpcApiError.with_message (e : JsonRpcApiError) (m : String) :
    JsonRpcApiError :=
  { e with message := m }

/-- Modelled from the spec: `JsonRpcApiError::to_response` builds the
error envelope `{jsonrpc: "2.0", id, error: {code, message}}`. -/
def JsonRpcApiError.to_response (e : JsonRpcApiError) : JsonRpcApiResponse :=
  { id := e.id, jsonrpc := "2.0", result := none,
    error := some (Json.obj [("code", Json.num e.code),
                             ("message", Json.str e.message)]),
    method := none, params := none }

/-- `impl From<ServiceRoutingResponse> for JsonRpcApiResponse`
(`ssda_types/src/lib.rs`): the `Error` arm ignores its payload (`_error`)
and returns `JsonRpcApiError::default().into()`; the `Success` arm builds
the struct literal field by field. -/
def JsonRpcApiResponse.fromServiceRoutingResponse
    (response : ServiceRoutingResponse) : JsonRpcApiResponse :=
  match response with
  | ServiceRoutingResponse.error _error => JsonRpcApiError.default.to_response
  | ServiceRoutingResponse.success success =>
      { id := some success.request_id.request_id,
        jsonrpc := "2.0",
        result := some success.response,
        error := none,
        method := none,
        params := none }

/-- Extracts the `message` component of an envelope's `error` object, when
the error field has the `{code, message}` shape. -/
def JsonRpcApiResponse.errMessage (r : JsonRpcApiResponse) : Option String :=
  match r.error with
  | some (Json.obj fields) =>
      match fields.lookup "message" with
      | some (Json.str s) => some s
      | _ => none
  | _ => none

/-!
## Service Broker (`core/main/src/broker/service_broker.rs`)

`ServiceBroker::get_broker` spawns one mailbox-draining task when a
platform state is supplied, and executes `panic!("Platform state is
required")` when it is not.  Inside the loop, each dequeued request is
handled by: building a `ServiceRoutingRequest` whose `request_id` is the
caller's `call_id` and whose `respond_to` is a fresh oneshot sender;
`try_send`ing it to the gateway registry queue with `.unwrap()`; then
awaiting the oneshot receiver and translating the reply.

The outcomes of the two suspension points — the `try_send` and the
oneshot `await` — are passed in as explicit data.
-/

/-- `crate::state::platform_state::PlatformState` is not under `src/`; the
broker only tests it for presence and reads an opaque gateway sender from
it, so it is modelled as an opaque token. -/
structure PlatformState where
  services_gateway_present : Unit

/-- `ripple_sdk` `CallContext`, reduced to the one field the broker reads
(`request.rpc.ctx.call_id`). -/
structure CallContext where
  call_id : Nat

/-- `ripple_sdk` `RpcRequest`, reduced to the fields the broker touches:
the call context and the (opaque, cloned-through) method/params payload. -/
structure RpcRequest where
  ctx : CallContext
  method : String
  params_json : Json

/-- `endpoint_broker::BrokerRequest`, reduced to its `rpc` field. -/
structure BrokerRequest where
  rpc : RpcRequest

/-- `ssda_types::gateway::ServiceRoutingRequest`, minus its oneshot sender
(the sender's behaviour is the `OneshotResult` environment input). -/
structure ServiceRoutingRequestData where
  request_id : ServiceRequestId
  payload : RpcRequest

/-- Outcome of `tokio::sync::mpsc::Sender::try_send` on the gateway
registry's inbound queue: `ok`, or failure because the queue is full or
closed. -/
inductive TrySendResult where
  | ok : TrySendResult
  | full : TrySendResult
  | closed : TrySendResult

/-- Outcome of `oneshot_rx.await`: either a reply arrived, or the sender
was dropped without replying (`RecvError`). -/
inductive OneshotResult where
  | ok (r : ServiceRoutingResponse) : OneshotResult
  | senderDropped : OneshotResult

/-- Environment for one iteration of the broker's mailbox loop: what the
`try_send` and the subsequent `await` return. -/
structure BrokerLoopEnv where
  submit : TrySendResult
  reply : OneshotResult

/-- Observable result of one iteration of the mailbox loop:
either an envelope is delivered to the caller's callback
(`send_broker_response`), or the await failure is merely logged and no
outcome is delivered, or the task panics (the `.unwrap()` on `try_send`). -/
inductive BrokerStep where
  | emitted (resp : JsonRpcApiResponse) : BrokerStep
  | loggedRecvError : BrokerStep
  | panicked : BrokerStep

/-- The `ServiceRoutingRequest` the loop builds for a dequeued request:
`request_id = request.rpc.ctx.call_id`, `payload = request.rpc.clone()`. -/
def serviceBrokerBuildRequest (request : BrokerRequest) :
    ServiceRoutingRequestData :=
  { request_id := { request_id := request.rpc.ctx.call_id },
    payload := request.rpc }

/-- One iteration of the `ServiceBroker` mailbox loop
(`service_broker.rs` lines 53–103), as a function of the environment:
`try_send(...).unwrap()` panics on submit failure; on `Ok(Error e)` the
callback receives `JsonRpcApiError::default().with_id(..).with_message(..)
.to_response()`; on `Ok(Success s)` it receives
`JsonRpcApiResponse::default().with_id(..).with_result(Some(..))`;
on `Err(RecvError)` the loop only logs
("ServiceBroker failed to receive response") and delivers nothing. -/
def serviceBrokerHandleRequest (_request : BrokerRequest)
    (env : BrokerLoopEnv) : BrokerStep :=
  match env.submit with
  | TrySendResult.full => BrokerStep.panicked
  | TrySendResult.closed => BrokerStep.panicked
  | TrySendResult.ok =>
    match env.reply with
    | OneshotResult.ok (ServiceRoutingResponse.error e) =>
        BrokerStep.emitted
          (((JsonRpcApiError.default.with_id e.request_id.request_id).with_message
              e.error).to_response)
    | OneshotResult.ok (ServiceRoutingResponse.success response) =>
        BrokerStep.emitted
          ((JsonRpcApiResponse.default.with_id
              response.request_id.request_id).with_result
            (some response.response))
    | OneshotResult.senderDropped => BrokerStep.loggedRecvError

/-- Result of `ServiceBroker::get_broker` as a whole: either a broker
value is constructed (platform state present: the loop task is spawned),
or the constructor executes `panic!("Platform state is required")`. -/
inductive GetBrokerResult where
  | constructed (platform_state : Option PlatformState) : GetBrokerResult
  | panickedWith (msg : String) : GetBrokerResult

/-- `ServiceBroker::get_broker` (`service_broker.rs` lines 40–117):
`if let Some(..) = ps` spawns the loop and returns `Self { .. }`;
the `else` branch is `panic!("Platform state is required")`, which aborts
before any broker value exists. -/
def ServiceBroker.get_broker (ps : Option PlatformState) : GetBrokerResult :=
  match ps with
  | some _ => GetBrokerResult.constructed ps
  | none => GetBrokerResult.panickedWith "Platform state is required"

/-!
## Websocket client (`ssda_types/src/lib.rs`, `WebsocketAPIGatewayClient`)

`handle_messages` splits the stream, immediately serialises and sends
`APIClientMessages::Register { firebolt_handlers:
registration.get_rule_registrations() }`, then loops over inbound frames
until the stream ends.  Per frame: a receive error is logged and the loop
continues; text that fails to parse as `APIClientMessages` is logged
("I don..t understand this message") and the loop continues; `Registered`
calls `handler.on_connected()`; `ServiceCall` invokes
`handler.handle_request` and sends the success or error response back;
`Register`/`Error`/`Unregister` are only logged; the remaining variants
fall into the `_ => {}` arm.

Serialisation of outbound messages (`serde_json::to_string`) cannot fail
for these payload-free-of-map-key types and is modelled as total.  `info!`
and `debug!` logs are not modelled; the `error!` log for a malformed
message is, since a claim mentions it.
-/

/-- The `ServiceRequestHandler` trait, reduced to the operations
`handle_messages` invokes (`handle_request`; `on_connected` and
`on_disconnected` are recorded as actions, not calls). -/
structure ServiceRequestHandler where
  handle_request : ServiceCall →
    Except ServiceCallErrorResponse ServiceCallSuccessResponse

/-- One inbound event on the websocket stream, as seen by the loop:
`rx.next()` yielded an `Err`, or a frame whose text failed to parse as
`APIClientMessages`, or a successfully parsed message. -/
inductive WsInbound where
  | recvError : WsInbound
  | malformed (text : String) : WsInbound
  | msg (m : APIClientMessages) : WsInbound

/-- Observable action of the client: an outbound websocket send, the
`error!` log for an unparseable message, the `error!` log for a stream
receive error, or the `handler.on_connected()` callback. -/
inductive ClientAction where
  | send (m : APIClientMessages) : ClientAction
  | logMalformed (text : String) : ClientAction
  | logRecvError : ClientAction
  | onConnected : ClientAction

/-- Actions produced by one iteration of the `handle_messages` receive
loop for one inbound event. Every arm of the Rust `match` falls through to
the next loop iteration (the `break` in the `Err` arm is commented out), so
processing one event never consumes the rest of the stream. -/
def handleOneMessage (handler : ServiceRequestHandler) (inbound : WsInbound) :
    List ClientAction :=
  match inbound with
  | WsInbound.recvError => [ClientAction.logRecvError]
  | WsInbound.malformed text => [ClientAction.logMalformed text]
  | WsInbound.msg m =>
    match m with
    | APIClientMessages.Register _ => []
    | APIClientMessages.Registered _ => [ClientAction.onConnected]
    | APIClientMessages.ErrorMessage _ => []
    | APIClientMessages.Unregister _ => []
    | APIClientMessages.ServiceCallMsg service_call =>
      match handler.handle_request service_call with
      | Except.ok response =>
          [ClientAction.send (APIClientMessages.ServiceCallSuccess response)]
      | Except.error e =>
          [ClientAction.send (APIClientMessages.ServiceCallError e)]
    | APIClientMessages.ServiceCallSuccess _ => []
    | APIClientMessages.ServiceCallError _ => []

/-- The `while let Some(message) = rx.next().await` loop of
`handle_messages`, over the whole inbound stream. -/
def handleMessagesLoop (handler : ServiceRequestHandler) :
    List WsInbound → List ClientAction
  | [] => []
  | inbound :: rest =>
      handleOneMessage handler inbound ++ handleMessagesLoop handler rest

/-- `WebsocketAPIGatewayClient::handle_messages`: first sends the
`Register` message built from `registration.get_rule_registrations()`,
then runs the receive loop until the stream ends. -/
def handle_messages (handler : ServiceRequestHandler)
    (registration : ServiceRegistration) (inbounds : List WsInbound) :
    List ClientAction :=
  ClientAction.send
      (APIClientMessages.Register
        { firebolt_handlers := registration.get_rule_registrations }) ::
    handleMessagesLoop handler inbounds

/-!
## Reconnect loop (`WebsocketAPIGatewayClient::connect`)

`connect` parses the url, sets `backoff = 1s`, then loops forever:
on `Ok` from `connect_async` it resets `backoff` to 1s and runs
`handle_messages` to completion (disconnect), then loops again with no
sleep; on `Err` it sleeps `backoff` and sets
`backoff = min(backoff * 2, 60s)`.  One attempt of the loop is one element
of the input list: a successful connection carrying that session's inbound
stream, or a connect failure.
-/

/-- One iteration outcome of `connect_async` in the reconnect loop. -/
inductive ConnectAttempt where
  | ok (inbounds : List WsInbound) : ConnectAttempt
  | err : ConnectAttempt

/-- The delay (in seconds) taken before the next loop iteration after each
attempt, with the backoff state threaded through: `none` means the loop
re-runs immediately (the `Ok` arm has no sleep), `some d` means
`tokio::time::sleep(backoff)` slept `d` seconds (the `Err` arm). -/
def connectDelays : Nat → List ConnectAttempt → List (Option Nat)
  | _, [] => []
  | _, ConnectAttempt.ok _ :: rest => none :: connectDelays 1 rest
  | backoff, ConnectAttempt.err :: rest =>
      some backoff :: connectDelays (min (backoff * 2) 60) rest

/-- The per-connection action traces of the reconnect loop: one trace of
`handle_messages` actions per successful connection, in order. -/
def connectSessions (handler : ServiceRequestHandler)
    (registration : ServiceRegistration) :
    List ConnectAttempt → List (List ClientAction)
  | [] => []
  | ConnectAttempt.ok inbounds :: rest =>
      handle_messages handler registration inbounds ::
        connectSessions handler registration rest
  | ConnectAttempt.err :: rest => connectSessions handler registration rest

/-!
## Provider response timeout
(`core/main/src/firebolt/handlers/provider_registrar.rs`)
-/

/-- `const DEFAULT_PROVIDER_RESPONSE_TIMEOUT_MS: u64 = 15000;`
(`provider_registrar.rs` line 55). -/
def DEFAULT_PROVIDER_RESPONSE_TIMEOUT_MS : Nat := 15000

/-- Modelled from the spec: the `ProviderBroker` challenge-dispatch code
that consumes the timeout is not under `src/` (only the constant's
declaration is).  Following the spec's words ("default 15000 ms,
overridable by configuration"), the dispatched challenge's deadline is the
configured timeout when one is supplied, and the default constant
otherwise. -/
def providerChallengeDeadlineMs (cfg : Option Nat) : Nat :=
  cfg.getD DEFAULT_PROVIDER_RESPONSE_TIMEOUT_MS

/-!
## `RPCProvider` (`core/main/src/firebolt/handlers/on_request_rpc.rs`)

`RPCProvider::response` forwards a `ProviderResponse` to
`ProviderBroker::provider_response` exactly when `get_response_payload`
returns `Some`, which requires `self.capability == ACK_CHALLENGE_CAPABILITY`;
otherwise it returns `Err(Error::Custom("No response payload defined"))`.
`RPCProvider::error` is the same with `get_error_payload` and
"No error response payload defined".  The generic result payloads are
modelled as opaque `Json` values.
-/

/-- Modelled from the spec: `ACK_CHALLENGE_CAPABILITY` is declared in
`ripple_sdk` (not under `src/`); the capability string is the literal the
same file matches against in `RippleRPCProviderGenerator::generate`. -/
def ACK_CHALLENGE_CAPABILITY : String :=
  "xrn:firebolt:capability:usergrant:acknowledgechallenge"

/-- `ripple_sdk` `ProviderResponsePayload`, reduced to the variants
`RPCProvider` constructs, with opaque payloads. -/
inductive ProviderResponsePayload where
  | ChallengeResponse (r : Json) : ProviderResponsePayload
  | ChallengeError (e : Json) : ProviderResponsePayload

/-- `ripple_sdk` `ProviderResponse` as built by `RPCProvider`. -/
structure ProviderResponse where
  correlation_id : String
  result : ProviderResponsePayload

/-- `ripple_sdk` `ExternalProviderResponse<T>` with an opaque payload. -/
structure ExternalProviderResponse where
  correlation_id : String
  result : Json

/-- The `RPCProvider` struct (platform state omitted: the modelled methods
only thread it through to the broker call, recorded as the forward list). -/
structure RPCProvider where
  capability : String
  event : String

/-- `RPCProvider::get_response_payload`: `Some(ChallengeResponse(result))`
iff the provider's capability is the acknowledge-challenge capability. -/
def RPCProvider.get_response_payload (p : RPCProvider) (result : Json) :
    Option ProviderResponsePayload :=
  if p.capability = ACK_CHALLENGE_CAPABILITY then
    some (ProviderResponsePayload.ChallengeResponse result)
  else
    none

/-- `RPCProvider::get_error_payload`: `Some(ChallengeError(result))` iff
the provider's capability is the acknowledge-challenge capability. -/
def RPCProvider.get_error_payload (p : RPCProvider) (result : Json) :
    Option ProviderResponsePayload :=
  if p.capability = ACK_CHALLENGE_CAPABILITY then
    some (ProviderResponsePayload.ChallengeError result)
  else
    none

/-- Return value of `RPCProvider::response` / `RPCProvider::error`
(`RpcResult<Option<()>>`), paired with the list of `ProviderResponse`s
forwarded to `ProviderBroker::provider_response`. -/
structure RpcProviderOutcome where
  forwarded : List ProviderResponse
  ret : Except String (Option Unit)

/-- `RPCProvider::response` (`on_request_rpc.rs` lines 202–219): forwards
to the Provider Broker and returns `Ok(None)` when `get_response_payload`
is `Some`; otherwise forwards nothing and returns the typed error
"No response payload defined". -/
def RPCProvider.response (p : RPCProvider)
    (resp : ExternalProviderResponse) : RpcProviderOutcome :=
  match p.get_response_payload resp.result with
  | some payload =>
      { forwarded := [{ correlation_id := resp.correlation_id,
                        result := payload }],
        ret := Except.ok none }
  | none =>
      { forwarded := [],
        ret := Except.error "No response payload defined" }

/-- `RPCProvider::error` (`on_request_rpc.rs` lines 221–240): forwards to
the Provider Broker and returns `Ok(None)` when `get_error_payload` is
`Some`; otherwise forwards nothing and returns the typed error
"No error response payload defined". -/
def RPCProvider.error (p : RPCProvider)
    (resp : ExternalProviderResponse) : RpcProviderOutcome :=
  match p.get_error_payload resp.result with
  | some payload =>
      { forwarded := [{ correlation_id := resp.correlation_id,
                        result := payload }],
        ret := Except.ok none }
  | none =>
      { forwarded := [],
        ret := Except.error "No error response payload defined" }

/-!
## Sample values used by witness theorems
-/

/-- A concrete `ServiceRequestHandler` used to instantiate witnesses. -/
def sampleHandler : ServiceRequestHandler :=
  { handle_request := fun c =>
      Except.ok { request_id := c.request_id, response := Json.null } }

/-- A concrete `ServiceRegistration` used to instantiate witnesses. -/
def sampleRegistration : ServiceRegistration :=
  { service_id := { service_id := "svc" },
    firebolt_handlers :=
      [{ firebolt_method := "m1", jq_rule := none }] }

/-!
## Theorems
-/

/-- C1: the claim says an await failure (oneshot sender dropped without a
reply) makes the broker emit a transport-error outcome to the caller's
callback.  The code's `Err` arm only logs: the loop iteration ends in
`loggedRecvError` and no envelope is ever emitted, so the caller is left
without an outcome. -/
theorem serviceBroker_awaitFailure_emits_nothing (request : BrokerRequest) :
    serviceBrokerHandleRequest request
        { submit := TrySendResult.ok, reply := OneshotResult.senderDropped } =
      BrokerStep.loggedRecvError ∧
    ∀ resp : JsonRpcApiResponse,
      serviceBrokerHandleRequest request
          { submit := TrySendResult.ok,
            reply := OneshotResult.senderDropped } ≠
        BrokerStep.emitted resp := by
  refine ⟨rfl, ?_⟩
  intro resp h
  simp [serviceBrokerHandleRequest] at h

/-- C2: the claim says constructing a `ServiceBroker` without platform
state returns a typed configuration error and never aborts.  The code's
`else` branch is `panic!("Platform state is required")`: construction with
`None` aborts and no broker value is ever produced. -/
theorem serviceBroker_getBroker_none_panics :
    ServiceBroker.get_broker none =
      GetBrokerResult.panickedWith "Platform state is required" ∧
    ∀ ps : Option PlatformState,
      ServiceBroker.get_broker none ≠ GetBrokerResult.constructed ps := by
  refine ⟨rfl, ?_⟩
  intro ps h
  simp [ServiceBroker.get_broker] at h

/-- C3: the claim says a failed submit to the gateway registry queue is
reported to the caller as a dispatch error and does not crash the broker
task.  The code calls `services_tx.try_send(service_request).unwrap()`:
when the queue is full or closed, the broker task panics; no dispatch
error is emitted. -/
theorem serviceBroker_submitFailure_panics (request : BrokerRequest)
    (reply : OneshotResult) :
    serviceBrokerHandleRequest request
        { submit := TrySendResult.full, reply := reply } =
      BrokerStep.panicked ∧
    serviceBrokerHandleRequest request
        { submit := TrySendResult.closed, reply := reply } =
      BrokerStep.panicked ∧
    ∀ resp : JsonRpcApiResponse,
      serviceBrokerHandleRequest request
          { submit := TrySendResult.full, reply := reply } ≠
        BrokerStep.emitted resp := by
  refine ⟨rfl, rfl, ?_⟩
  intro resp h
  simp [serviceBrokerHandleRequest] at h

/-- C4 counterexample: the claim says the reconnect loop delays retries by
the backoff sequence on connect failure *or disconnect*.  In the code the
`Ok` arm has no sleep: after a successful connection ends (disconnect),
the loop reconnects immediately (`none`), not after the (reset) 1-second
backoff the claim implies. -/
theorem connect_disconnect_retry_not_delayed :
    connectDelays 1 [ConnectAttempt.ok [], ConnectAttempt.err] =
      [none, some 1] ∧
    (none : Option Nat) ≠ some 1 := by
  constructor
  · rfl
  · intro h
    cases h

/-- C4 amended: successive connect-failure delays are 1, 2, 4, 8, 16, 32,
then capped at 60 seconds; the backoff resets to 1 second after any
successful connection — but the retry that follows a disconnect itself
happens immediately, with no backoff delay. -/
theorem connect_backoff_sequence :
    connectDelays 1 (List.replicate 9 ConnectAttempt.err) =
      [some 1, some 2, some 4, some 8, some 16, some 32, some 60, some 60,
        some 60] ∧
    (∀ (backoff : Nat) (inbounds : List WsInbound)
        (rest : List ConnectAttempt),
      connectDelays backoff (ConnectAttempt.ok inbounds :: rest) =
        none :: connectDelays 1 rest) := by
  exact ⟨rfl, fun _ _ _ => rfl⟩

/-- C5 counterexample: the claim says every translation of
`ServiceRoutingResponse::Error{request_id, error}` into a JSON-RPC
response carries the original request id and the error message.  The
`From<ServiceRoutingResponse> for JsonRpcApiResponse` impl's `Error` arm
ignores its payload (`_error`) and returns `JsonRpcApiError::default()`'s
envelope: at `Error{request_id: 7, error: "boom"}` the envelope's id is
not 7, its message is not "boom", and the translation of
`Error{request_id: 8, error: "zap"}` is the identical envelope. -/
theorem fromServiceRoutingResponse_error_drops_id :
    (JsonRpcApiResponse.fromServiceRoutingResponse
        (ServiceRoutingResponse.error
          { request_id := { request_id := 7 }, error := "boom" })).id ≠
      some 7 ∧
    (JsonRpcApiResponse.fromServiceRoutingResponse
        (ServiceRoutingResponse.error
          { request_id := { request_id := 7 },
            error := "boom" })).errMessage ≠
      some "boom" ∧
    JsonRpcApiResponse.fromServiceRoutingResponse
        (ServiceRoutingResponse.error
          { request_id := { request_id := 7 }, error := "boom" }) =
      JsonRpcApiResponse.fromServiceRoutingResponse
        (ServiceRoutingResponse.error
          { request_id := { request_id := 8 }, error := "zap" }) := by
  refine ⟨?_, ?_, rfl⟩
  · intro h
    simp [JsonRpcApiResponse.fromServiceRoutingResponse,
      JsonRpcApiError.to_response, JsonRpcApiError.default] at h
  · intro h
    simp [JsonRpcApiResponse.fromServiceRoutingResponse,
      JsonRpcApiResponse.errMessage, JsonRpcApiError.to_response,
      JsonRpcApiError.default, List.lookup] at h

/-- C5 amended: the Service Broker's own error path — the envelope built
by `JsonRpcApiError::default().with_id(..).with_message(..).to_response()`
and handed to the callback — carries the original request id and the
routing error's message; the generic `From<ServiceRoutingResponse>`
conversion's `Error` arm instead yields the default error envelope, whose
id is `None` for every input. -/
theorem serviceBroker_error_envelope_carries_id_and_message
    (request : BrokerRequest) (e : ServiceRoutingErrorResponse) :
    serviceBrokerHandleRequest request
        { submit := TrySendResult.ok,
          reply := OneshotResult.ok (ServiceRoutingResponse.error e) } =
      BrokerStep.emitted
        (((JsonRpcApiError.default.with_id
              e.request_id.request_id).with_message e.error).to_response) ∧
    (((JsonRpcApiError.default.with_id
          e.request_id.request_id).with_message e.error).to_response).id =
      some e.request_id.request_id ∧
    (((JsonRpcApiError.default.with_id
          e.request_id.request_id).with_message
        e.error).to_response).errMessage = some e.error ∧
    ∀ e2 : ServiceRoutingErrorResponse,
      (JsonRpcApiResponse.fromServiceRoutingResponse
          (ServiceRoutingResponse.error e2)).id = none := by
  refine ⟨rfl, rfl, ?_, fun e2 => rfl⟩
  simp [JsonRpcApiError.to_response, JsonRpcApiError.with_message,
    JsonRpcApiError.with_id, JsonRpcApiError.default,
    JsonRpcApiResponse.errMessage, List.lookup]

/-- C6: translating `ServiceRoutingResponse::Success{request_id, response}`
yields `{jsonrpc: "2.0", id: request_id, result: response}` with no error
field — both in the `From` impl's `Success` arm and in the broker loop's
success path (`JsonRpcApiResponse::default().with_id(..)
.with_result(Some(..))`). -/
theorem serviceRouting_success_envelope (s : ServiceRoutingSuccessResponse) :
    JsonRpcApiResponse.fromServiceRoutingResponse
        (ServiceRoutingResponse.success s) =
      { id := some s.request_id.request_id, jsonrpc := "2.0",
        result := some s.response, error := none, method := none,
        params := none } ∧
    ∀ request : BrokerRequest,
      serviceBrokerHandleRequest request
          { submit := TrySendResult.ok,
            reply := OneshotResult.ok (ServiceRoutingResponse.success s) } =
        BrokerStep.emitted
          { id := some s.request_id.request_id, jsonrpc := "2.0",
            result := some s.response, error := none, method := none,
            params := none } := by
  exact ⟨rfl, fun _ => rfl⟩

/-- C7: every session the reconnect loop starts — one per successful
connection, reconnections included — begins by sending the `Register`
message carrying the registration's declared handler list, before any
other outbound traffic or other action. -/
theorem websocket_first_action_is_register
    (handler : ServiceRequestHandler) (registration : ServiceRegistration)
    (attempts : List ConnectAttempt) (trace : List ClientAction)
    (h : trace ∈ connectSessions handler registration attempts) :
    trace.head? =
      some (ClientAction.send
        (APIClientMessages.Register
          { firebolt_handlers := registration.get_rule_registrations })) := by
  induction attempts with
  | nil => simp [connectSessions] at h
  | cons attempt rest ih =>
    cases attempt with
    | ok inbounds =>
      rw [connectSessions] at h
      rcases List.mem_cons.mp h with h1 | h2
      · subst h1
        rfl
      · exact ih h2
    | err =>
      rw [connectSessions] at h
      exact ih h

/-- C7 witness: a concrete run with one successful connection. -/
theorem websocket_first_action_is_register_witness :
    (handle_messages sampleHandler sampleRegistration [] ∈
      connectSessions sampleHandler sampleRegistration
        [ConnectAttempt.ok []]) ∧
    (handle_messages sampleHandler sampleRegistration []).head? =
      some (ClientAction.send
        (APIClientMessages.Register
          { firebolt_handlers :=
              sampleRegistration.get_rule_registrations })) := by
  refine ⟨?_, ?_⟩
  · simp [connectSessions]
  · exact websocket_first_action_is_register sampleHandler
      sampleRegistration [ConnectAttempt.ok []]
      (handle_messages sampleHandler sampleRegistration [])
      (by simp [connectSessions])

/-- C8: an inbound frame that does not parse as `APIClientMessages` is
logged and the receive loop continues: the actions on the rest of the
stream are exactly those the loop would take anyway, so a malformed
message never terminates the message loop. -/
theorem websocket_malformed_logged_and_loop_continues
    (handler : ServiceRequestHandler) (pre post : List WsInbound)
    (text : String) :
    handleMessagesLoop handler (pre ++ WsInbound.malformed text :: post) =
      handleMessagesLoop handler pre ++
        ClientAction.logMalformed text :: handleMessagesLoop handler post := by
  induction pre with
  | nil => rfl
  | cons inbound rest ih =>
    simp only [List.cons_append, handleMessagesLoop, List.append_eq, ih,
      List.append_assoc]

/-- C9: the challenge response deadline defaults to the constant
`DEFAULT_PROVIDER_RESPONSE_TIMEOUT_MS = 15000` milliseconds and is
overridable by configuration: the deadline is the configured timeout when
one is supplied, and 15000 ms when none is. -/
theorem challengeDeadline_default_15000_overridable :
    DEFAULT_PROVIDER_RESPONSE_TIMEOUT_MS = 15000 ∧
    providerChallengeDeadlineMs none = DEFAULT_PROVIDER_RESPONSE_TIMEOUT_MS ∧
    providerChallengeDeadlineMs none = 15000 ∧
    ∀ t : Nat, providerChallengeDeadlineMs (some t) = t := by
  exact ⟨rfl, rfl, rfl, fun _ => rfl⟩

/-- C10: for every capability other than the acknowledge-challenge
capability, `RPCProvider::response` and `RPCProvider::error` forward
nothing to the Provider Broker and return the typed errors
"No response payload defined" / "No error response payload defined". -/
theorem rpcProvider_nonAck_never_forwards (p : RPCProvider)
    (resp : ExternalProviderResponse)
    (h : p.capability ≠ ACK_CHALLENGE_CAPABILITY) :
    (p.response resp).forwarded = [] ∧
    (p.response resp).ret = Except.error "No response payload defined" ∧
    (RPCProvider.error p resp).forwarded = [] ∧
    (RPCProvider.error p resp).ret =
      Except.error "No error response payload defined" := by
  simp [RPCProvider.response, RPCProvider.error,
    RPCProvider.get_response_payload, RPCProvider.get_error_payload, h]

/-- C10 witness: a provider for the capability "foo". -/
theorem rpcProvider_nonAck_never_forwards_witness :
    ("foo" ≠ ACK_CHALLENGE_CAPABILITY) ∧
    ((RPCProvider.response { capability := "foo", event := "evt" }
        { correlation_id := "cid", result := Json.null }).forwarded = [] ∧
      (RPCProvider.response { capability := "foo", event := "evt" }
          { correlation_id := "cid", result := Json.null }).ret =
        Except.error "No response payload defined" ∧
      (RPCProvider.error { capability := "foo", event := "evt" }
          { correlation_id := "cid", result := Json.null }).forwarded = [] ∧
      (RPCProvider.error { capability := "foo", event := "evt" }
          { correlation_id := "cid", result := Json.null }).ret =
        Except.error "No error response payload defined") :=
  ⟨by decide,
    rpcProvider_nonAck_never_forwards
      { capability := "foo", event := "evt" }
      { correlation_id := "cid", result := Json.null } (by decide)⟩
